import Mathlib

/-!
Shallow embedding of the domainchecker repository:
  - src/components/AddDomainForm.tsx : normalizeDomain
  - src/lib/domainsduck.ts           : checkDomain, checkDomainAvailability, RateLimiter
  - the check-domains route handler  : GET / POST / HEAD (src/unnamed/part_002)
External collaborators (HTTP fetch, Supabase, Resend) are modelled as explicit
inputs (an oracle outcome per domain, an e-mail outcome per domain) and outputs
(an event log of oracle calls, store writes and notification inserts).
-/

namespace DomainChecker

/-! ## String helpers modelling the JavaScript string operations used -/

/-- JavaScript String.prototype.toLowerCase, restricted to the ASCII mapping
used by domain names: lower every character. -/
def lowerList (l : List Char) : List Char := l.map Char.toLower

/-- JavaScript String.prototype.trim: drop whitespace from both ends. -/
def trimList (l : List Char) : List Char :=
  ((l.dropWhile Char.isWhitespace).reverse.dropWhile Char.isWhitespace).reverse

/-- The regex replace /^https?:\/\// with "": strip one leading scheme. -/
def stripScheme (l : List Char) : List Char :=
  if List.isPrefixOf "https://".data l then l.drop 8
  else if List.isPrefixOf "http://".data l then l.drop 7
  else l

/-- The regex replace /^www\./ with "": strip one leading "www." -/
def stripWww (l : List Char) : List Char :=
  if List.isPrefixOf "www.".data l then l.drop 4 else l

/-- The regex replace /\/$/ with "": strip one trailing slash. -/
def stripTrailingSlash (l : List Char) : List Char :=
  if l.getLast? = some '/' then l.dropLast else l

/-- normalizeDomain from src/components/AddDomainForm.tsx:
trim, lowercase, strip scheme, strip "www.", strip a trailing slash. -/
def normalizeList (l : List Char) : List Char :=
  stripTrailingSlash (stripWww (stripScheme (lowerList (trimList l))))

/-- String-level wrapper of `normalizeList`. -/
def normalizeDomain (s : String) : String := String.mk (normalizeList s.data)

/-! ## Domainsduck client (src/lib/domainsduck.ts) -/

/-- Outcome of the raw HTTP exchange with the availability oracle, as
distinguished by the control flow of checkDomain: an abort (timeout), a non-OK
HTTP response, a body that fails JSON parsing, or a parsed body whose
optional `availability` field is the given string (absent = `none`). -/
inductive OracleOutcome where
  | timeout
  | httpError (status : Nat) (text : String)
  | jsonError (msg : String)
  | ok (availability : Option String)
deriving DecidableEq

/-- checkDomain: maps the oracle exchange to a boolean availability or a
thrown error (modelled as Except.error carrying the thrown message).
`"true"` and `"premium domain"` (after toLowerCase) map to true; every other
parsed availability value maps to false. -/
def checkDomain (domain : String) (o : OracleOutcome) : Except String Bool :=
  match o with
  | .timeout => .error ("Domain check timeout for " ++ domain)
  | .httpError status text =>
      .error ("API request failed (" ++ toString status ++ "): " ++ text)
  | .jsonError msg => .error msg
  | .ok availability =>
      match availability with
      | none => .ok false
      | some a =>
          .ok (String.mk (lowerList a.data) == "true"
               || String.mk (lowerList a.data) == "premium domain")

/-- The DomainCheckResult record returned by checkDomainAvailability. -/
structure DomainCheckResult where
  domain : String
  available : Bool
  status : String
  checkedAt : Nat
  error : Option String
deriving DecidableEq

/-- checkDomainAvailability: total wrapper around checkDomain. On success it
reports the boolean and the derived status; on any failure it returns the
fixed fallback `available := false, status := "registered"` with the error
message attached — it never rethrows. -/
def checkDomainAvailability (domain : String) (o : OracleOutcome) (now : Nat) :
    DomainCheckResult :=
  match checkDomain domain o with
  | .ok available =>
      { domain := domain
        available := available
        status := if available then "available" else "registered"
        checkedAt := now
        error := none }
  | .error e =>
      { domain := domain
        available := false
        status := "registered"
        checkedAt := now
        error := some e }

/-! ## RateLimiter (src/lib/domainsduck.ts) -/

/-- The in-memory sliding-window rate limiter. Timestamps are integers
(milliseconds, as produced by Date.now()). -/
structure RateLimiter where
  requests : List Int
  maxRequests : Nat
  windowMs : Int
deriving DecidableEq

/-- canMakeRequest: drop timestamps outside the window, then either record
`now` and allow the request, or deny it. Returns the boolean together with
the updated limiter state. -/
def RateLimiter.canMakeRequest (now : Int) (s : RateLimiter) :
    Bool × RateLimiter :=
  let reqs := s.requests.filter (fun t => now - t < s.windowMs)
  if reqs.length < s.maxRequests then
    (true, { s with requests := reqs ++ [now] })
  else
    (false, { s with requests := reqs })

/-- The exported instance: `new RateLimiter(30, 60 * 60 * 1000)`. -/
def rateLimiter : RateLimiter :=
  { requests := [], maxRequests := 30, windowMs := 3600000 }

/-! ## The check-domains route handler (src/unnamed/part_002)

The external collaborators of the route are explicit model inputs:
  - the environment variables as an `Env` of optional strings,
  - the Authorization header as an `Option String`,
  - the persisted domains table as a `List StoredDomain` (rows in the
    order the active/ordered store query returns them),
  - per domain (keyed by its name, which is what the route hands to the
    oracle and what Date.now()-dependent control flow observes):
    the elapsed milliseconds at dispatch, the oracle exchange outcome and
    the outcome of the external e-mail sender.
Outputs are the HTTP response, the table after the pass, and an event log
of store reads/writes, oracle calls and notification activity. -/

/-- The environment variables the route reads (none = unset). -/
structure Env where
  cronSecret : Option String
  supabaseUrl : Option String
  supabaseAnonKey : Option String
  domainsduckApiKey : Option String
  resendApiKey : Option String
  resendFromEmail : Option String
  notificationEmail : Option String
deriving DecidableEq

/-- JavaScript falsiness of an env value: unset or the empty string. -/
def falsy : Option String → Bool
  | none => true
  | some s => s == ""

/-- The step-1 validation of the route: names of required env vars whose value
is falsy, in declaration order. -/
def missingVars (e : Env) : List String :=
  (if falsy e.cronSecret then ["CRON_SECRET"] else [])
  ++ (if falsy e.supabaseUrl then ["NEXT_PUBLIC_SUPABASE_URL"] else [])
  ++ (if falsy e.supabaseAnonKey then ["NEXT_PUBLIC_SUPABASE_ANON_KEY"] else [])
  ++ (if falsy e.domainsduckApiKey then ["DOMAINSDUCK_API_KEY"] else [])
  ++ (if falsy e.resendApiKey then ["RESEND_API_KEY"] else [])
  ++ (if falsy e.resendFromEmail then ["RESEND_FROM_EMAIL"] else [])
  ++ (if falsy e.notificationEmail then ["NOTIFICATION_EMAIL"] else [])

/-- A row of the domains table as the route sees it. -/
structure StoredDomain where
  id : Nat
  name : String
  status : String
  active : Bool
  lastChecked : Option Nat
deriving DecidableEq

/-- Outcome of the external e-mail sender for one notification attempt. -/
inductive EmailOutcome where
  | sent (messageId : String)
  | failed (msg : String)
deriving DecidableEq

/-- The per-domain external inputs of one pass. -/
structure CheckInputs where
  elapsed : Nat
  oracle : OracleOutcome
  email : EmailOutcome

/-- Observable side effects of the route, in order of occurrence. -/
inductive Event where
  | fetchDomains
  | oracleCall (domain : String)
  | writeDomain (id : Nat) (newStatus : String) (lastChecked : Nat)
  | emailSend (domain : String)
  | insertRecord (domainId : Nat) (status : String) (errorMessage : Option String)
deriving DecidableEq

/-- One entry of the domains array of the response. -/
structure ResultEntry where
  domain : String
  status : String
  changed : Bool
  previousStatus : Option String
  error : Option String
deriving DecidableEq

/-- sendAvailabilityNotification: re-reads the two e-mail env vars (bailing
out silently when either is falsy), attempts one send, and appends exactly
one email_notifications row recording the outcome. -/
def sendAvailabilityNotification (env : Env) (d : StoredDomain)
    (email : EmailOutcome) : List Event :=
  if falsy env.notificationEmail || falsy env.resendFromEmail then []
  else
    match email with
    | .sent _ => [.emailSend d.name, .insertRecord d.id "sent" none]
    | .failed m => [.emailSend d.name, .insertRecord d.id "failed" (some m)]

/-- The supabase update targeted at one row: set status and last_checked. -/
def updateStore (store : List StoredDomain) (id : Nat) (newStatus : String)
    (now : Nat) : List StoredDomain :=
  store.map fun x =>
    if x.id = id then { x with status := newStatus, lastChecked := some now }
    else x

/-- The body of one checkPromises callback: skip the domain when the soft
deadline has passed; otherwise check availability (total — failures come
back as the fallback result), persist the new status and last_checked,
record the result entry, and notify when the domain is available and its
status changed. Returns the updated table, the pushed entry (none when
skipped), whether the domain was counted available, and the events. -/
def processDomain (env : Env) (now : Nat) (d : StoredDomain) (inp : CheckInputs)
    (store : List StoredDomain) :
    List StoredDomain × Option ResultEntry × Bool × List Event :=
  if inp.elapsed > 9000 then (store, none, false, [])
  else
    let result := checkDomainAvailability d.name inp.oracle now
    let newStatus := if result.available then "available" else "registered"
    let changed := d.status != newStatus
    let store1 := updateStore store d.id newStatus now
    let entry : ResultEntry :=
      { domain := d.name
        status := newStatus
        changed := changed
        previousStatus := if changed then some d.status else none
        error := none }
    let notifEvents :=
      if result.available && changed then
        sendAvailabilityNotification env d inp.email
      else []
    (store1, some entry, result.available,
      [.oracleCall d.name, .writeDomain d.id newStatus now] ++ notifEvents)

/-- Accumulated pass state across domains. -/
structure PassState where
  store : List StoredDomain
  results : List ResultEntry
  availableCount : Nat
  events : List Event
deriving DecidableEq

/-- Fold step over the fetched domains. -/
def stepDomain (env : Env) (now : Nat) (inputs : String → CheckInputs)
    (s : PassState) (d : StoredDomain) : PassState :=
  match processDomain env now d (inputs d.name) s.store with
  | (store1, entry?, avail, evs) =>
      { store := store1
        results := s.results ++ entry?.toList
        availableCount := s.availableCount + (if avail then 1 else 0)
        events := s.events ++ evs }

/-- The JSON response, flattened: HTTP status, success flag, summary
counters, per-domain entries, and the error name for failure bodies. -/
structure HttpResponse where
  status : Nat
  success : Bool
  checked : Nat
  available : Nat
  domains : List ResultEntry
  errorName : Option String
deriving DecidableEq

/-- Result of one invocation of the route. -/
structure GetResult where
  response : HttpResponse
  store : List StoredDomain
  events : List Event
deriving DecidableEq

/-- The GET handler: env validation (500), bearer-token check (401), fetch
of active domains, the per-domain fan-out, and the 200 summary. -/
def GET (env : Env) (authHeader : Option String) (store : List StoredDomain)
    (now : Nat) (inputs : String → CheckInputs) : GetResult :=
  if (missingVars env).length > 0 then
    { response :=
        { status := 500, success := false, checked := 0, available := 0,
          domains := [], errorName := some "Configuration error" }
      store := store, events := [] }
  else if authHeader ≠ some ("Bearer " ++ env.cronSecret.getD "") then
    { response :=
        { status := 401, success := false, checked := 0, available := 0,
          domains := [], errorName := some "Unauthorized" }
      store := store, events := [] }
  else
    let fetched := store.filter (·.active)
    if fetched.isEmpty then
      { response :=
          { status := 200, success := true, checked := 0, available := 0,
            domains := [], errorName := none }
        store := store, events := [.fetchDomains] }
    else
      let final := fetched.foldl (stepDomain env now inputs)
        { store := store, results := [], availableCount := 0,
          events := [.fetchDomains] }
      { response :=
          { status := 200, success := true, checked := final.results.length,
            available := final.availableCount, domains := final.results,
            errorName := none }
        store := final.store, events := final.events }

/-- POST handler: method not allowed. -/
def POST : Nat := 405

/-- HEAD handler: the unauthenticated health check. -/
def HEAD : Nat := 200

/-- All HTTP methods that can hit the route path. -/
inductive HttpMethod where
  | get | post | head | put | delete | patch | options
deriving DecidableEq

/-- Status code of the route for each method. GET delegates to the full
handler; POST and HEAD are the exported handlers above. Modelled from the
spec: for the remaining methods no handler is exported and the hosting
framework answers 405. -/
def routeStatus (m : HttpMethod) (env : Env) (authHeader : Option String)
    (store : List StoredDomain) (now : Nat) (inputs : String → CheckInputs) :
    Nat :=
  match m with
  | .get => (GET env authHeader store now inputs).response.status
  | .post => POST
  | .head => HEAD
  | _ => 405

/-- Count of e-mail send attempts in an event log. -/
def countEmailSends (evs : List Event) : Nat :=
  (evs.filter fun e =>
    match e with
    | .emailSend _ => true
    | _ => false).length

/-- Count of email_notifications inserts in an event log. -/
def countRecordInserts (evs : List Event) : Nat :=
  (evs.filter fun e =>
    match e with
    | .insertRecord _ _ _ => true
    | _ => false).length

/-! ## Concrete fixtures used by the scenario theorems -/

/-- A fully configured environment. -/
def envOK : Env :=
  { cronSecret := some "cron-secret"
    supabaseUrl := some "supabase-url"
    supabaseAnonKey := some "anon-key"
    domainsduckApiKey := some "duck-key"
    resendApiKey := some "resend-key"
    resendFromEmail := some "from-addr"
    notificationEmail := some "to-addr" }

/-- The Authorization header matching envOK. -/
def authOK : Option String := some "Bearer cron-secret"

/-- Three active domains previously registered, registered, available. -/
def scenarioStore : List StoredDomain :=
  [ { id := 1, name := "a.com", status := "registered", active := true,
      lastChecked := some 1 },
    { id := 2, name := "b.com", status := "registered", active := true,
      lastChecked := some 2 },
    { id := 3, name := "c.com", status := "available", active := true,
      lastChecked := some 3 } ]

/-- Oracle answers false, true, false for the three scenario domains; no
deadline pressure; the e-mail sender succeeds. -/
def scenarioInputs : String → CheckInputs := fun n =>
  if n = "a.com" then
    { elapsed := 0, oracle := .ok (some "false"), email := .sent "m1" }
  else if n = "b.com" then
    { elapsed := 0, oracle := .ok (some "true"), email := .sent "m2" }
  else
    { elapsed := 0, oracle := .ok (some "false"), email := .sent "m3" }

/-- One active domain, previously available, last checked at 100. -/
def timeoutStore : List StoredDomain :=
  [ { id := 1, name := "example.com", status := "available", active := true,
      lastChecked := some 100 } ]

/-- The oracle call for every domain times out. -/
def timeoutInputs : String → CheckInputs := fun _ =>
  { elapsed := 0, oracle := .timeout, email := .sent "m" }

/-- One active domain, previously available, last checked at 42. -/
def httpErrStore : List StoredDomain :=
  [ { id := 7, name := "x.com", status := "available", active := true,
      lastChecked := some 42 } ]

/-- The oracle answers every domain with a non-OK HTTP response. -/
def httpErrInputs : String → CheckInputs := fun _ =>
  { elapsed := 0, oracle := .httpError 500 "boom", email := .sent "m" }

/-! ## C1 -/

/-- C1: the claim says a domain whose oracle check times out keeps its
persisted status and last_checked. The code violates it: on timeout
checkDomainAvailability returns the fallback (available := false), so the
pass persists status "registered" and a fresh last_checked for the
timed-out domain. Evaluated at one timed-out domain previously available:
the row is rewritten and a write event is emitted. -/
theorem timeout_domain_is_written :
    (GET envOK authOK timeoutStore 5000 timeoutInputs).store
      = [ { id := 1, name := "example.com", status := "registered",
            active := true, lastChecked := some 5000 } ]
    ∧ (GET envOK authOK timeoutStore 5000 timeoutInputs).store ≠ timeoutStore
    ∧ Event.writeDomain 1 "registered" 5000
        ∈ (GET envOK authOK timeoutStore 5000 timeoutInputs).events := by
  decide

/-! ## C2 -/

/-- C2 counterexample: the claim says an oracle response string other than
the five recognized codes is a protocol error; the code instead maps every
unrecognized string to a successful available := false answer. -/
theorem unrecognized_code_is_not_error :
    checkDomain "example.com" (OracleOutcome.ok (some "gibberish"))
      = Except.ok false := rfl

/-- C2 (amended): "true" and "premium domain" map to available := true;
"false", "reserved" and "bad tld" map to available := false; and every
other response string also maps to available := false rather than to a
protocol error. -/
theorem checkDomain_response_mapping (d s : String)
    (h1 : String.mk (lowerList s.data) ≠ "true")
    (h2 : String.mk (lowerList s.data) ≠ "premium domain") :
    checkDomain d (OracleOutcome.ok (some "true")) = Except.ok true
    ∧ checkDomain d (OracleOutcome.ok (some "premium domain")) = Except.ok true
    ∧ checkDomain d (OracleOutcome.ok (some "false")) = Except.ok false
    ∧ checkDomain d (OracleOutcome.ok (some "reserved")) = Except.ok false
    ∧ checkDomain d (OracleOutcome.ok (some "bad tld")) = Except.ok false
    ∧ checkDomain d (OracleOutcome.ok (some s)) = Except.ok false := by
  refine ⟨rfl, rfl, rfl, rfl, rfl, ?_⟩
  have t1 : (String.mk (lowerList s.data) == "true") = false :=
    beq_eq_false_iff_ne.mpr h1
  have t2 : (String.mk (lowerList s.data) == "premium domain") = false :=
    beq_eq_false_iff_ne.mpr h2
  simp [checkDomain, t1, t2]

/-- C2 witness: the amended mapping evaluated at the concrete unrecognized
response string "xyz". -/
theorem checkDomain_response_mapping_witness :
    checkDomain "example.com" (OracleOutcome.ok (some "xyz"))
      = Except.ok false :=
  (checkDomain_response_mapping "example.com" "xyz" (by decide)
    (by decide)).2.2.2.2.2

/-! ## C4 -/

/-- C4 counterexample: in the 3-domain scenario (previous statuses
registered, registered, available; oracle answers false, true, false) the
claim says the third result entry has changed = false; the code computes
changed = true for it, because available to registered is a status change. -/
theorem scenario_domain3_changed :
    (GET envOK authOK scenarioStore 5000 scenarioInputs).response.domains
      = [ { domain := "a.com", status := "registered", changed := false,
            previousStatus := none, error := none },
          { domain := "b.com", status := "available", changed := true,
            previousStatus := some "registered", error := none },
          { domain := "c.com", status := "registered", changed := true,
            previousStatus := some "available", error := none } ]
    ∧ ¬ ((GET envOK authOK scenarioStore 5000 scenarioInputs).response.domains.getD 2
          { domain := "", status := "", changed := true,
            previousStatus := none, error := none }).changed = false := by
  decide

/-- C4 (amended): in the same scenario the summary reports checked = 3 and
available = 1, domain 2 has changed = true with previousStatus
"registered", exactly one notification fires (for domain 2), and domain 3
has changed = true with previousStatus "available" (not changed = false as
the claim stated). -/
theorem scenario_summary :
    (GET envOK authOK scenarioStore 5000 scenarioInputs).response.checked = 3
    ∧ (GET envOK authOK scenarioStore 5000 scenarioInputs).response.available = 1
    ∧ ((GET envOK authOK scenarioStore 5000 scenarioInputs).response.domains.getD 1
          { domain := "", status := "", changed := false,
            previousStatus := none, error := none })
        = { domain := "b.com", status := "available", changed := true,
            previousStatus := some "registered", error := none }
    ∧ ((GET envOK authOK scenarioStore 5000 scenarioInputs).response.domains.getD 2
          { domain := "", status := "", changed := false,
            previousStatus := none, error := none })
        = { domain := "c.com", status := "registered", changed := true,
            previousStatus := some "available", error := none }
    ∧ countEmailSends (GET envOK authOK scenarioStore 5000 scenarioInputs).events = 1
    ∧ Event.emailSend "b.com"
        ∈ (GET envOK authOK scenarioStore 5000 scenarioInputs).events := by
  decide

/-! ## C5 -/

/-- C5: the claim says a failed check (timeout or protocol error) yields a
result entry carrying the previous status, changed = false and an error
message, with no persisted write. The code violates it: the failure is
converted into available := false, so the entry reports status
"registered" with changed computed against the previous status and no
error field, and the row is rewritten. Evaluated at one domain previously
available whose oracle call fails with HTTP 500. -/
theorem failed_check_recorded_as_registered :
    (GET envOK authOK httpErrStore 9999 httpErrInputs).response.domains
      = [ { domain := "x.com", status := "registered", changed := true,
            previousStatus := some "available", error := none } ]
    ∧ (GET envOK authOK httpErrStore 9999 httpErrInputs).store
      = [ { id := 7, name := "x.com", status := "registered", active := true,
            lastChecked := some 9999 } ]
    ∧ Event.writeDomain 7 "registered" 9999
        ∈ (GET envOK authOK httpErrStore 9999 httpErrInputs).events := by
  decide

/-! ## C8 -/

/-- C8 counterexample: the claim says every method other than GET answers
405; the exported HEAD handler is an unauthenticated health check that
answers 200. -/
theorem head_returns_200 :
    routeStatus HttpMethod.head envOK authOK [] 0 timeoutInputs = 200
    ∧ ¬ routeStatus HttpMethod.head envOK authOK [] 0 timeoutInputs = 405 := by
  decide

/-- C8 (amended): POST answers 405, and so does every method without an
exported handler (PUT, DELETE, PATCH, OPTIONS); HEAD instead answers 200. -/
theorem non_get_method_statuses (env : Env) (a : Option String)
    (store : List StoredDomain) (now : Nat) (inputs : String → CheckInputs) :
    routeStatus HttpMethod.post env a store now inputs = 405
    ∧ routeStatus HttpMethod.head env a store now inputs = 200
    ∧ routeStatus HttpMethod.put env a store now inputs = 405
    ∧ routeStatus HttpMethod.delete env a store now inputs = 405
    ∧ routeStatus HttpMethod.patch env a store now inputs = 405
    ∧ routeStatus HttpMethod.options env a store now inputs = 405 :=
  ⟨rfl, rfl, rfl, rfl, rfl, rfl⟩

/-! ## C9 -/

/-- C9: checkDomainAvailability is total — for every oracle exchange it
returns a result; when checkDomain succeeds it reports the boolean and the
derived status with no error, and when checkDomain fails for any reason the
result is the fixed fallback available := false, status := "registered"
with the error message attached. -/
theorem checkDomainAvailability_total (domain : String) (o : OracleOutcome)
    (now : Nat) :
    (∃ b, checkDomain domain o = Except.ok b
      ∧ checkDomainAvailability domain o now
        = { domain := domain, available := b,
            status := if b then "available" else "registered",
            checkedAt := now, error := none })
    ∨ (∃ e, checkDomain domain o = Except.error e
      ∧ checkDomainAvailability domain o now
        = { domain := domain, available := false, status := "registered",
            checkedAt := now, error := some e }) := by
  cases h : checkDomain domain o with
  | ok b =>
      exact Or.inl ⟨b, rfl, by unfold checkDomainAvailability; rw [h]⟩
  | error e =>
      exact Or.inr ⟨e, rfl, by unfold checkDomainAvailability; rw [h]⟩

/-! ## C7 -/

/-- C7: on a configured deployment, a request whose Authorization header is
missing or differs from the configured bearer secret is answered 401 with
no side effects at all: no store read, no oracle call, no write, and the
table is unchanged. -/
theorem unauthorized_request_rejected (env : Env) (authHeader : Option String)
    (store : List StoredDomain) (now : Nat) (inputs : String → CheckInputs)
    (henv : missingVars env = [])
    (hauth : authHeader ≠ some ("Bearer " ++ env.cronSecret.getD "")) :
    (GET env authHeader store now inputs).response.status = 401
    ∧ (GET env authHeader store now inputs).events = []
    ∧ (GET env authHeader store now inputs).store = store := by
  unfold GET
  rw [henv]
  simp [hauth]

/-- C7 witness: a request with no Authorization header against the
fully configured environment. -/
theorem unauthorized_request_rejected_witness :
    (GET envOK none [] 0 timeoutInputs).response.status = 401 :=
  (unauthorized_request_rejected envOK none [] 0 timeoutInputs (by decide)
    (by decide)).1

/-! ## C10 -/

/-- State of the limiter after a sequence of canMakeRequest calls at the
given clock readings. -/
def runRequests (nows : List Int) (s : RateLimiter) : RateLimiter :=
  nows.foldl (fun a t => (RateLimiter.canMakeRequest t a).2) s

/-- canMakeRequest never changes the maxRequests field. -/
theorem canMakeRequest_maxRequests (s : RateLimiter) (now : Int) :
    (RateLimiter.canMakeRequest now s).2.maxRequests = s.maxRequests := by
  simp only [RateLimiter.canMakeRequest]
  split <;> rfl

/-- One canMakeRequest call keeps the stored list within maxRequests. -/
theorem canMakeRequest_length_le (s : RateLimiter) (now : Int)
    (h : s.requests.length ≤ s.maxRequests) :
    (RateLimiter.canMakeRequest now s).2.requests.length ≤ s.maxRequests := by
  simp only [RateLimiter.canMakeRequest]
  split
  next hc => simp; omega
  next hc => simpa using le_trans (List.length_filter_le _ _) h

/-- The per-call bound extends to any sequence of calls. -/
theorem runRequests_length_le (nows : List Int) :
    ∀ s : RateLimiter, s.requests.length ≤ s.maxRequests →
      (runRequests nows s).requests.length ≤ s.maxRequests := by
  induction nows with
  | nil => intro s h; exact h
  | cons t rest ih =>
      intro s h
      have hstep := canMakeRequest_length_le s t h
      rw [← canMakeRequest_maxRequests s t] at hstep
      have h2 := ih _ hstep
      rw [canMakeRequest_maxRequests s t] at h2
      simpa [runRequests, List.foldl_cons] using h2

/-- C10: starting from the exported rateLimiter instance, the stored
timestamp list never exceeds maxRequests entries after any sequence of
canMakeRequest calls; a call returns true iff fewer than maxRequests of the
stored timestamps are within windowMs of the supplied clock; and the clock
value is appended exactly when the call returns true. -/
theorem rateLimiter_properties :
    (∀ nows : List Int,
      (runRequests nows rateLimiter).requests.length ≤ rateLimiter.maxRequests)
    ∧ (∀ (s : RateLimiter) (now : Int),
        (RateLimiter.canMakeRequest now s).1 = true ↔
          (s.requests.filter (fun t => now - t < s.windowMs)).length
            < s.maxRequests)
    ∧ (∀ (s : RateLimiter) (now : Int),
        (RateLimiter.canMakeRequest now s).1 = true →
          (RateLimiter.canMakeRequest now s).2.requests
            = s.requests.filter (fun t => now - t < s.windowMs) ++ [now])
    ∧ (∀ (s : RateLimiter) (now : Int),
        (RateLimiter.canMakeRequest now s).1 = false →
          (RateLimiter.canMakeRequest now s).2.requests
            = s.requests.filter (fun t => now - t < s.windowMs)) := by
  refine ⟨fun nows => runRequests_length_le nows rateLimiter (by simp [rateLimiter]),
    ?_, ?_, ?_⟩
  · intro s now
    simp only [RateLimiter.canMakeRequest]
    split
    next hc => simpa using hc
    next hc => simpa using hc
  · intro s now
    simp only [RateLimiter.canMakeRequest]
    split
    next hc => intro _; rfl
    next hc => intro hfalse; simp at hfalse
  · intro s now
    simp only [RateLimiter.canMakeRequest]
    split
    next hc => intro htrue; simp at htrue
    next hc => intro _; rfl

/-- C10 witness: a concrete allowed call records the clock value. -/
theorem rateLimiter_properties_witness :
    (RateLimiter.canMakeRequest 5
      { requests := [0], maxRequests := 2, windowMs := 100 }).2.requests
      = [0, 5] :=
  (rateLimiter_properties.2.2.1
    { requests := [0], maxRequests := 2, windowMs := 100 } 5 (by decide)).trans
    (by decide)

/-! ## C6 -/

/-- A list unchanged by each normalization stage is unchanged by the whole
normalization. -/
theorem normalizeList_fixed (l : List Char)
    (h1 : trimList l = l) (h2 : lowerList l = l)
    (h3 : List.isPrefixOf "https://".data l = false)
    (h4 : List.isPrefixOf "http://".data l = false)
    (h5 : List.isPrefixOf "www.".data l = false)
    (h6 : l.getLast? ≠ some '/') :
    normalizeList l = l := by
  have e3 : stripScheme l = l := by
    unfold stripScheme
    rw [if_neg (by simp [h3]), if_neg (by simp [h4])]
  have e4 : stripWww l = l := by
    unfold stripWww
    rw [if_neg (by simp [h5])]
  have e5 : stripTrailingSlash l = l := by
    unfold stripTrailingSlash
    rw [if_neg h6]
  unfold normalizeList
  rw [h1, h2, e3, e4, e5]

/-- C6 counterexample: normalization is not idempotent for every input —
the input "www.www.a" normalizes to "www.a", which normalizes again to
"a". -/
theorem normalize_not_idempotent :
    ¬ normalizeDomain (normalizeDomain "www.www.a")
        = normalizeDomain "www.www.a" := by
  decide

/-- C6 (amended): normalization is idempotent on every input whose
normalized form is already trimmed and lowercase and carries no "http://",
"https://" or "www." prefix and no trailing slash (it is not idempotent in
general), and normalizing "HTTPS://WWW.Example.COM/" gives "example.com". -/
theorem normalizeDomain_idempotent_on_normal (x : String)
    (h1 : trimList (normalizeDomain x).data = (normalizeDomain x).data)
    (h2 : lowerList (normalizeDomain x).data = (normalizeDomain x).data)
    (h3 : List.isPrefixOf "https://".data (normalizeDomain x).data = false)
    (h4 : List.isPrefixOf "http://".data (normalizeDomain x).data = false)
    (h5 : List.isPrefixOf "www.".data (normalizeDomain x).data = false)
    (h6 : (normalizeDomain x).data.getLast? ≠ some '/') :
    normalizeDomain (normalizeDomain x) = normalizeDomain x
    ∧ normalizeDomain "HTTPS://WWW.Example.COM/" = "example.com" := by
  refine ⟨?_, by decide⟩
  show String.mk (normalizeList (normalizeDomain x).data) = normalizeDomain x
  rw [normalizeList_fixed _ h1 h2 h3 h4 h5 h6]

/-- C6 witness: the amended idempotence applied to the concrete input
"Example.com/". -/
theorem normalize_idempotent_witness :
    normalizeDomain (normalizeDomain "Example.com/")
      = normalizeDomain "Example.com/" :=
  (normalizeDomain_idempotent_on_normal "Example.com/" (by decide) (by decide)
    (by decide) (by decide) (by decide) (by decide)).1

/-! ## C3 -/

/-- When step-1 validation passes, the two e-mail env vars are set, so
sendAvailabilityNotification does not bail out. -/
theorem emails_present_of_validated (env : Env) (h : missingVars env = []) :
    falsy env.notificationEmail = false ∧ falsy env.resendFromEmail = false := by
  constructor
  · cases hf : falsy env.notificationEmail
    · rfl
    · exfalso
      have hm : "NOTIFICATION_EMAIL" ∈ missingVars env := by
        unfold missingVars
        simp [hf]
      rw [h] at hm
      simp at hm
  · cases hf : falsy env.resendFromEmail
    · rfl
    · exfalso
      have hm : "RESEND_FROM_EMAIL" ∈ missingVars env := by
        unfold missingVars
        simp [hf]
      rw [h] at hm
      simp at hm

/-- Event log of one in-deadline domain, spelled out. -/
theorem processDomain_events (env : Env) (now : Nat) (d : StoredDomain)
    (inp : CheckInputs) (store : List StoredDomain)
    (hdl : ¬ inp.elapsed > 9000) :
    (processDomain env now d inp store).2.2.2
      = [Event.oracleCall d.name,
         Event.writeDomain d.id
           (if (checkDomainAvailability d.name inp.oracle now).available
            then "available" else "registered") now]
        ++ (if (checkDomainAvailability d.name inp.oracle now).available
              && (d.status !=
                  (if (checkDomainAvailability d.name inp.oracle now).available
                   then "available" else "registered"))
            then sendAvailabilityNotification env d inp.email else []) := by
  unfold processDomain
  rw [if_neg hdl]

/-- C3: for a domain processed within the deadline under a validated
configuration: a notification attempt occurs iff the newly computed status
is available and differs from the previously persisted status; the
transition registered to available produces exactly one e-mail attempt and
exactly one notification record; an already-available domain that stays
available produces none. -/
theorem notification_on_transition (env : Env) (now : Nat) (d : StoredDomain)
    (inp : CheckInputs) (store : List StoredDomain)
    (henv : missingVars env = [])
    (hrun : inp.elapsed ≤ 9000) :
    ((Event.emailSend d.name ∈ (processDomain env now d inp store).2.2.2) ↔
      ((checkDomainAvailability d.name inp.oracle now).available = true
        ∧ d.status ≠ (if (checkDomainAvailability d.name inp.oracle now).available
                      then "available" else "registered")))
    ∧ (d.status = "registered" →
        (checkDomainAvailability d.name inp.oracle now).available = true →
          countEmailSends (processDomain env now d inp store).2.2.2 = 1
          ∧ countRecordInserts (processDomain env now d inp store).2.2.2 = 1)
    ∧ (d.status = "available" →
        (checkDomainAvailability d.name inp.oracle now).available = true →
          countEmailSends (processDomain env now d inp store).2.2.2 = 0
          ∧ countRecordInserts (processDomain env now d inp store).2.2.2 = 0) := by
  obtain ⟨hne, hfe⟩ := emails_present_of_validated env henv
  have hdl : ¬ inp.elapsed > 9000 := by omega
  rw [processDomain_events env now d inp store hdl]
  cases hav : (checkDomainAvailability d.name inp.oracle now).available with
  | false =>
      refine ⟨by simp [countEmailSends], ?_, ?_⟩
      · intro _ h2; simp at h2
      · intro _ h2; simp at h2
  | true =>
      by_cases hst : d.status = "available"
      · have hb : (d.status != "available") = false := by simp [hst]
        refine ⟨?_, ?_, ?_⟩
        · simp [hb, hst, countEmailSends]
        · intro h1 _; rw [h1] at hst; simp at hst
        · intro _ _
          simp [hb, countEmailSends, countRecordInserts]
      · have hb : (d.status != "available") = true := by
          simpa using hst
        cases he : inp.email with
        | sent mid =>
            refine ⟨?_, ?_, ?_⟩
            · simp [hb, hst, sendAvailabilityNotification, hne, hfe]
            · intro _ _
              simp [hb, sendAvailabilityNotification, hne, hfe,
                countEmailSends, countRecordInserts, List.filter]
            · intro h1 _; exact absurd h1 hst
        | failed msg =>
            refine ⟨?_, ?_, ?_⟩
            · simp [hb, hst, sendAvailabilityNotification, hne, hfe]
            · intro _ _
              simp [hb, sendAvailabilityNotification, hne, hfe,
                countEmailSends, countRecordInserts, List.filter]
            · intro h1 _; exact absurd h1 hst

/-- C3 witness: a registered domain found available with a working sender:
one e-mail attempt and one notification record. -/
theorem notification_on_transition_witness :
    countEmailSends
      (processDomain envOK 5000
        { id := 1, name := "a.com", status := "registered", active := true,
          lastChecked := some 1 }
        { elapsed := 0, oracle := .ok (some "true"), email := .sent "m" }
        []).2.2.2 = 1 :=
  ((notification_on_transition envOK 5000
      { id := 1, name := "a.com", status := "registered", active := true,
        lastChecked := some 1 }
      { elapsed := 0, oracle := .ok (some "true"), email := .sent "m" }
      [] (by decide) (by decide)).2.1 rfl (by decide)).1

end DomainChecker
